import Mathlib

/-!
Verification of the workflow designer / debugger client state stores
(`src/stores/designerStore.ts`: the designer store and the debug store).

The embedding models JavaScript objects as association lists in insertion
order, JavaScript numbers as rationals, and each asynchronous store
operation as a pure function that additionally takes the backend call's
outcome (`Except String α`) as a parameter and returns the list of backend
calls it issued together with the value or exception it delivers to its
caller.
-/

/-- A JavaScript runtime value as it appears in the property bags and event
payloads handled by the stores (scalars; objects are modelled separately as
association lists of scalars, which covers every shape the store reads). -/
inductive JsValue where
  | str : String → JsValue
  | num : ℚ → JsValue
  | bool : Bool → JsValue
  | null : JsValue
deriving DecidableEq, Repr

/-- JavaScript truthiness of a scalar value. -/
def jsTruthy : JsValue → Bool
  | .str s => s ≠ ""
  | .num q => q ≠ 0
  | .bool b => b
  | .null => false

/-- A JavaScript object: keys with values, in insertion order (duplicate
keys never occur in objects produced by the runtime). -/
abbrev JsObj (α : Type) := List (String × α)

/-- Property read `o[k]`: the value at key `k`, `none` for `undefined`. -/
def objGet {α : Type} (o : JsObj α) (k : String) : Option α :=
  (o.find? (fun p => p.1 == k)).map Prod.snd

/-- Property write `o[k] = v`: updates the value in place if the key is
present (insertion order kept), otherwise appends the new key. -/
def objSet {α : Type} (o : JsObj α) (k : String) (v : α) : JsObj α :=
  if o.any (fun p => p.1 == k) then
    o.map (fun p => if p.1 == k then (k, v) else p)
  else
    o ++ [(k, v)]

/-- Object spread `{ ...o, ...props }`: fold the entries of `props` into
`o` with property writes. -/
def objExtend {α : Type} (o props : JsObj α) : JsObj α :=
  props.foldl (fun acc p => objSet acc p.1 p.2) o

/-- Property delete `delete o[k]`. -/
def objDelete {α : Type} (o : JsObj α) (k : String) : JsObj α :=
  o.filter (fun p => p.1 != k)

/-- JavaScript `Math.round`: round to the nearest integer, halves toward
positive infinity. -/
def jsRound (q : ℚ) : Int := (q + 1 / 2).floor

/-! ### Document model (`src/types/workflow.ts`) -/

/-- The `NodeType` string union of `types/workflow.ts`; a well-typed
`DesignerNode.type` is always one of these strings. -/
def isNodeType (s : String) : Bool :=
  s == "start" || s == "end" || s == "user_task" || s == "service_task" ||
  s == "script_task" || s == "exclusive_gateway" || s == "parallel_gateway" ||
  s == "inclusive_gateway" || s == "sub_process"

/-- 2D position (`Position`). -/
structure Pos where
  x : ℚ
  y : ℚ
deriving DecidableEq, Repr

/-- A named connection point (`Port`). -/
structure Port where
  id : String
  name : String
  type : Option String := none
  position : String
deriving DecidableEq, Repr

/-- Input/output port configuration (`PortConfig`). -/
structure PortConfig where
  inputs : List Port
  outputs : List Port
deriving DecidableEq, Repr

/-- A document node (`DesignerNode`); `type` carries a `NodeType` string
(see `isNodeType`) and `properties` is an open property bag. -/
structure DesignerNode where
  id : String
  type : String
  name : String
  position : Pos
  properties : JsObj JsValue
  ports : Option PortConfig := none
deriving DecidableEq, Repr

/-- A typed condition expression on an edge (`ConditionExpr`). -/
structure ConditionExpr where
  type : String
  expression : String
  params : Option (JsObj JsValue) := none
deriving DecidableEq, Repr

/-- Visual edge style (`EdgeStyle`). -/
structure EdgeStyle where
  strokeColor : Option String := none
  strokeWidth : Option ℚ := none
  strokeStyle : Option String := none
  animated : Option Bool := none
deriving DecidableEq, Repr

/-- A document edge (`DesignerEdge`). -/
structure DesignerEdge where
  id : String
  source : String
  target : String
  sourcePort : Option String := none
  targetPort : Option String := none
  label : Option String := none
  condition : Option ConditionExpr := none
  priority : Option ℚ := none
  style : Option EdgeStyle := none
deriving DecidableEq, Repr

/-- A declared workflow variable (`Variable`). -/
structure Variable where
  name : String
  type : String
  defaultValue : Option JsValue := none
  description : Option String := none
  required : Bool
deriving DecidableEq, Repr

/-- Canvas viewport configuration (`CanvasConfig`). -/
structure CanvasConfig where
  zoom : ℚ
  panX : ℚ
  panY : ℚ
  gridSize : ℚ
  snapGrid : Bool
deriving DecidableEq, Repr

/-- Design metadata (`DesignMetadata`). -/
structure DesignMetadata where
  author : Option String := none
  createdAt : Option String := none
  updatedAt : Option String := none
  tags : Option (List String) := none
  canvasConfig : Option CanvasConfig := none
deriving DecidableEq, Repr

/-- The canonical workflow document (`WorkflowDesign`). -/
structure WorkflowDesign where
  id : String
  name : String
  description : String
  version : String
  status : String
  nodes : List DesignerNode
  edges : List DesignerEdge
  «variables» : JsObj Variable
  metadata : Option DesignMetadata := none
deriving DecidableEq, Repr

/-- One option of a select-style configurable field. -/
structure SelectOption where
  label : String
  value : JsValue
deriving DecidableEq, Repr

/-- A configurable field of a node template (`ConfigField`). -/
structure ConfigField where
  key : String
  label : String
  type : String
  required : Bool
  defaultValue : Option JsValue := none
  options : Option (List SelectOption) := none
  placeholder : Option String := none
  description : Option String := none
deriving DecidableEq, Repr

/-- A catalog entry (`NodeTemplate`). -/
structure NodeTemplate where
  type : String
  name : String
  icon : String
  category : String
  description : String
  defaultProps : JsObj JsValue
  ports : PortConfig
  configurable : List ConfigField
deriving DecidableEq, Repr

/-! ### Render-graph model (the React Flow `Node`/`Edge` fields the store
sets and reads) -/

/-- A render node as built by `toFlowNode`: id, type string, position and
the `data` payload (the synthesized `label` plus the property bag). -/
structure FlowNode where
  id : String
  type : String
  position : Pos
  data : JsObj JsValue
deriving DecidableEq, Repr

/-- The `data` payload of a render edge (`condition` and `priority` nested
so they survive a round trip). -/
structure EdgeData where
  condition : Option ConditionExpr := none
  priority : Option ℚ := none
deriving DecidableEq, Repr

/-- A render edge as built by `toFlowEdge`. -/
structure FlowEdge where
  id : String
  source : String
  target : String
  sourceHandle : Option String := none
  targetHandle : Option String := none
  label : Option String := none
  type : String := "smoothstep"
  data : EdgeData := {}
deriving DecidableEq, Repr

/-! ### Graph projection (`designerStore.ts`, `toFlowNode` / `toFlowEdge` /
`toDesignerNodes` / `toDesignerEdges`) -/

/-- `toFlowNode`: project a document node to the render shape; the data
payload is the object literal `{ label: node.name, ...node.properties }`. -/
def toFlowNode (node : DesignerNode) : FlowNode :=
  { id := node.id
    type := node.type
    position := { x := node.position.x, y := node.position.y }
    data := objExtend [("label", JsValue.str node.name)] node.properties }

/-- `toFlowEdge`: project a document edge to the render shape. -/
def toFlowEdge (edge : DesignerEdge) : FlowEdge :=
  { id := edge.id
    source := edge.source
    target := edge.target
    sourceHandle := edge.sourcePort
    targetHandle := edge.targetPort
    label := edge.label
    type := "smoothstep"
    data := { condition := edge.condition, priority := edge.priority } }

/-- The per-node body of `toDesignerNodes`: rebuild a document node from a
render node — `type` falls back to `"default"` when falsy, `name` is read
from `data.label` (the `as string` cast combined with `|| ''` yields the
stored string, which `toFlowNode` always makes a `JsValue.str`, and `''`
when absent or falsy), positions are rounded, and the property bag is the
data payload without the `label` key. -/
def fromFlowNode (node : FlowNode) : DesignerNode :=
  { id := node.id
    type := if node.type == "" then "default" else node.type
    name := match objGet node.data "label" with
      | some (JsValue.str s) => s
      | _ => ""
    position := { x := (jsRound node.position.x : ℚ), y := (jsRound node.position.y : ℚ) }
    properties := node.data.filter (fun p => p.1 != "label") }

/-- The per-edge body of `toDesignerEdges`. -/
def fromFlowEdge (edge : FlowEdge) : DesignerEdge :=
  { id := edge.id
    source := edge.source
    target := edge.target
    sourcePort := edge.sourceHandle
    targetPort := edge.targetHandle
    label := match edge.label with
      | some s => if s == "" then none else some s
      | none => none
    condition := edge.data.condition
    priority := edge.data.priority }

/-! ### Designer store state and operations -/

/-- The designer store's state (`DesignerState` of `designerStore.ts`). -/
structure DesignerState where
  design : Option WorkflowDesign := none
  designId : Option String := none
  nodes : List FlowNode := []
  edges : List FlowEdge := []
  selectedNodeId : Option String := none
  selectedEdgeId : Option String := none
  templates : List NodeTemplate := []
  loading : Bool := false
  saving : Bool := false
  error : Option String := none
deriving DecidableEq, Repr

/-- `toDesignerNodes`: the store's current render nodes converted back to
document nodes. -/
def toDesignerNodes (st : DesignerState) : List DesignerNode :=
  st.nodes.map fromFlowNode

/-- `toDesignerEdges`: the store's current render edges converted back to
document edges. -/
def toDesignerEdges (st : DesignerState) : List DesignerEdge :=
  st.edges.map fromFlowEdge

/-- The hardcoded built-in template catalog installed by `loadTemplates`
when the backend fetch fails. -/
def defaultTemplates : List NodeTemplate :=
  [ { type := "start", name := "开始", icon := "play", category := "control",
      description := "流程开始", defaultProps := [],
      ports := { inputs := [],
                 outputs := [{ id := "out", name := "输出", position := "bottom" }] },
      configurable := [] },
    { type := "end", name := "结束", icon := "square", category := "control",
      description := "流程结束", defaultProps := [],
      ports := { inputs := [{ id := "in", name := "输入", position := "top" }],
                 outputs := [] },
      configurable := [] },
    { type := "user_task", name := "用户任务", icon := "user", category := "task",
      description := "人工处理", defaultProps := [],
      ports := { inputs := [{ id := "in", name := "输入", position := "top" }],
                 outputs := [{ id := "out", name := "输出", position := "bottom" }] },
      configurable := [] },
    { type := "service_task", name := "服务任务", icon := "cog", category := "task",
      description := "自动服务", defaultProps := [],
      ports := { inputs := [{ id := "in", name := "输入", position := "top" }],
                 outputs := [{ id := "out", name := "输出", position := "bottom" }] },
      configurable := [] },
    { type := "exclusive_gateway", name := "排他网关", icon := "git-branch",
      category := "gateway", description := "条件分支", defaultProps := [],
      ports := { inputs := [{ id := "in", name := "输入", position := "top" }],
                 outputs := [{ id := "out1", name := "条件1", position := "bottom" },
                             { id := "out2", name := "条件2", position := "right" }] },
      configurable := [] } ]

/-- `loadTemplates`: install the fetched catalog on success, the built-in
fallback catalog on any failure; the operation is total (it never raises to
its caller). -/
def loadTemplates (st : DesignerState) (backend : Except String (List NodeTemplate)) :
    DesignerState :=
  match backend with
  | Except.ok templates => { st with templates := templates }
  | Except.error _ => { st with templates := defaultTemplates }

/-- `deleteNode`: drop the node, cascade-drop every incident edge, and
clear the node selection if it pointed at the deleted node. -/
def deleteNode (st : DesignerState) (nodeId : String) : DesignerState :=
  { st with
    nodes := st.nodes.filter (fun node => node.id != nodeId)
    edges := st.edges.filter (fun edge => edge.source != nodeId && edge.target != nodeId)
    selectedNodeId := if st.selectedNodeId = some nodeId then none else st.selectedNodeId }

/-- `deleteEdge`: drop the edge and clear the edge selection if it pointed
at the deleted edge. -/
def deleteEdge (st : DesignerState) (edgeId : String) : DesignerState :=
  { st with
    edges := st.edges.filter (fun edge => edge.id != edgeId)
    selectedEdgeId := if st.selectedEdgeId = some edgeId then none else st.selectedEdgeId }

/-- `selectNode`: set the node selection and clear the edge selection. -/
def selectNode (st : DesignerState) (nodeId : Option String) : DesignerState :=
  { st with selectedNodeId := nodeId, selectedEdgeId := none }

/-- `selectEdge`: set the edge selection and clear the node selection. -/
def selectEdge (st : DesignerState) (edgeId : Option String) : DesignerState :=
  { st with selectedEdgeId := edgeId, selectedNodeId := none }

/-! ### Debug session model (`src/types/workflow.ts`, debug section) -/

/-- The `SessionStatus` union of the debug session state machine. -/
inductive DebugStatus where
  | paused
  | running
  | completed
  | error
deriving DecidableEq, Repr

/-- A breakpoint (`Breakpoint`): node id, optional condition, enabled flag. -/
structure Breakpoint where
  nodeId : String
  condition : Option String := none
  enabled : Bool
deriving DecidableEq, Repr

/-- The current execution pointer (`TokenSnapshot`). -/
structure TokenSnapshot where
  id : String
  currentNodeId : String
  currentNode : String
  status : String
  data : JsObj JsValue
  path : List String
deriving DecidableEq, Repr

/-- One timeline record (`ExecutionStep`). -/
structure ExecutionStep where
  id : ℚ
  sessionId : String
  stepIndex : ℚ
  timestamp : String
  nodeId : String
  nodeName : String
  nodeType : String
  tokenId : String
  action : String
  inputData : Option (JsObj JsValue) := none
  outputData : Option (JsObj JsValue) := none
  durationMs : Option ℚ := none
  error : Option (JsObj JsValue) := none
deriving DecidableEq, Repr

/-- A debug session (`DebugSession`). -/
structure DebugSession where
  id : String
  instanceId : String
  definitionId : String
  mode : String
  status : DebugStatus
  currentToken : Option TokenSnapshot := none
  «variables» : JsObj JsValue := []
  breakpoints : JsObj Breakpoint := []
  timeline : List ExecutionStep := []
  createdBy : String := ""
  createdAt : String := ""
deriving DecidableEq, Repr

/-- An inbound event-channel frame (`DebugEvent`); the `type` is kept as a
string because frames are cast straight out of JSON, and unrecognized types
must be ignored. The payload is the JSON object carried by the frame. -/
structure DebugEvent where
  type : String
  sessionId : String
  timestamp : String
  payload : JsObj JsValue := []
deriving DecidableEq, Repr

/-- Result of `api.debugStep` (its shape follows §4.3 of the design: the
reply carries the updated session and optionally the executed step; the
store reads only the `session` field). -/
structure StepResult where
  session : DebugSession
  step : Option ExecutionStep := none
deriving DecidableEq, Repr

/-- The debug store's state (`DebugState` of `designerStore.ts`); `ws`
records whether the event-channel connection object is present. -/
structure DebugState where
  session : Option DebugSession := none
  ws : Bool := false
  events : List DebugEvent := []
  highlightedNodeId : Option String := none
  loading : Bool := false
  error : Option String := none
deriving DecidableEq, Repr

/-- A backend request issued by a debug store operation. -/
inductive BackendCall where
  | debugStep (sessionId : String)
  | debugContinue (sessionId : String)
  | debugPause (sessionId : String)
  | debugStop (sessionId : String)
  | addBreakpoint (sessionId nodeId : String) (condition : Option String)
  | removeBreakpoint (sessionId nodeId : String)
deriving DecidableEq, Repr

/-! ### Debug store operations (`designerStore.ts`, debug store) -/

/-- `updateSession(updates)` with a `status` field: merge into the current
session when one exists, otherwise do nothing. -/
def updateSessionStatus (st : DebugState) (status : DebugStatus) : DebugState :=
  match st.session with
  | some s => { st with session := some { s with status := status } }
  | none => st

/-- `updateSession(updates)` with a `breakpoints` field. -/
def updateSessionBreakpoints (st : DebugState) (breakpoints : JsObj Breakpoint) :
    DebugState :=
  match st.session with
  | some s => { st with session := some { s with breakpoints := breakpoints } }
  | none => st

/-- `updateSession(updates)` with a `variables` field. -/
def updateSessionVariables (st : DebugState) (vars : JsObj JsValue) : DebugState :=
  match st.session with
  | some s => { st with session := some { s with «variables» := vars } }
  | none => st

/-- `disconnect`: close the event channel if it is open. -/
def disconnect (st : DebugState) : DebugState :=
  { st with ws := false }

/-- The `node_id` read from an event payload by the `as { node_id: string }`
cast (a missing or non-string field leaves the highlight cleared, as storing
`undefined` does). -/
def payloadNodeId (p : JsObj JsValue) : Option String :=
  match objGet p "node_id" with
  | some (JsValue.str s) => some s
  | _ => none

/-- The `key` read from a `variable_changed` payload; a missing or
non-string field is modelled by the string a computed object key receives
for `undefined`. -/
def payloadKey (p : JsObj JsValue) : String :=
  match objGet p "key" with
  | some (JsValue.str s) => s
  | _ => "undefined"

/-- The `value` read from a `variable_changed` payload. -/
def payloadValue (p : JsObj JsValue) : JsValue :=
  match objGet p "value" with
  | some v => v
  | none => JsValue.null

/-- `handleEvent`: append the event to the local log, then dispatch on its
`type` string; unrecognized types are ignored. -/
def handleEvent (st : DebugState) (event : DebugEvent) : DebugState :=
  let st := { st with events := st.events ++ [event] }
  if event.type == "node_entered" then
    { st with highlightedNodeId := payloadNodeId event.payload }
  else if event.type == "node_exited" then
    st
  else if event.type == "session_paused" then
    updateSessionStatus st DebugStatus.paused
  else if event.type == "session_resumed" then
    updateSessionStatus st DebugStatus.running
  else if event.type == "session_completed" then
    { updateSessionStatus st DebugStatus.completed with highlightedNodeId := none }
  else if event.type == "breakpoint_hit" then
    updateSessionStatus { st with highlightedNodeId := payloadNodeId event.payload }
      DebugStatus.paused
  else if event.type == "variable_changed" then
    let vars := (match st.session with | some s => s.variables | none => [])
    updateSessionVariables st (objSet vars (payloadKey event.payload) (payloadValue event.payload))
  else if event.type == "error" then
    updateSessionStatus st DebugStatus.error
  else
    st

/-- The event channel's `onmessage` handler: parse the frame's data and
feed the event to `handleEvent`; a frame that fails to parse is logged and
swallowed (the state is returned unchanged, and no exception escapes).
JSON decoding is a platform primitive, so it enters the model as the
`parse` parameter. -/
def onMessage (parse : String → Option DebugEvent) (st : DebugState) (data : String) :
    DebugState :=
  match parse data with
  | some event => handleEvent st event
  | none => st

/-- `stop`: with no session, return immediately; otherwise await the
backend stop call. On success, disconnect the channel and clear the session
and the highlight; on failure, record the error message and re-raise,
leaving session and highlight untouched. -/
def stop (st : DebugState) (backend : Except String Unit) :
    DebugState × List BackendCall × Except String Unit :=
  match st.session with
  | none => (st, [], Except.ok ())
  | some s =>
    match backend with
    | Except.ok _ =>
      ({ disconnect st with session := none, highlightedNodeId := none },
       [BackendCall.debugStop s.id], Except.ok ())
    | Except.error msg =>
      ({ st with error := some msg }, [BackendCall.debugStop s.id], Except.error msg)

/-- `step`: with no session, return `null` without a backend call;
otherwise request one step, replace the session snapshot with the reply's,
and move the highlight to the reply's current-token node when one exists.
On failure, record the error and re-raise. -/
def step (st : DebugState) (backend : Except String StepResult) :
    DebugState × List BackendCall × Except String (Option StepResult) :=
  match st.session with
  | none => (st, [], Except.ok none)
  | some s =>
    match backend with
    | Except.ok result =>
      let st1 := { st with session := some result.session }
      let st2 := match result.session.currentToken with
        | some token => { st1 with highlightedNodeId := some token.currentNodeId }
        | none => st1
      (st2, [BackendCall.debugStep s.id], Except.ok (some result))
    | Except.error msg =>
      ({ st with error := some msg }, [BackendCall.debugStep s.id], Except.error msg)

/-- `continue`: with no session, return; otherwise issue the backend
continue call and, once acknowledged, optimistically set the status to
`running`. On failure, record the error and re-raise. -/
def continue' (st : DebugState) (backend : Except String Unit) :
    DebugState × List BackendCall × Except String Unit :=
  match st.session with
  | none => (st, [], Except.ok ())
  | some s =>
    match backend with
    | Except.ok _ =>
      (updateSessionStatus st DebugStatus.running, [BackendCall.debugContinue s.id],
       Except.ok ())
    | Except.error msg =>
      ({ st with error := some msg }, [BackendCall.debugContinue s.id], Except.error msg)

/-- `pause`: with no session, return; otherwise issue the backend pause
call and, once acknowledged, optimistically set the status to `paused`. -/
def pause (st : DebugState) (backend : Except String Unit) :
    DebugState × List BackendCall × Except String Unit :=
  match st.session with
  | none => (st, [], Except.ok ())
  | some s =>
    match backend with
    | Except.ok _ =>
      (updateSessionStatus st DebugStatus.paused, [BackendCall.debugPause s.id],
       Except.ok ())
    | Except.error msg =>
      ({ st with error := some msg }, [BackendCall.debugPause s.id], Except.error msg)

/-- `addBreakpoint`: with no session, return; otherwise call the backend
and, on success, insert `{ nodeId, condition, enabled: true }` into the
local breakpoints map. On failure, record the error and re-raise. -/
def addBreakpoint (st : DebugState) (nodeId : String) (condition : Option String)
    (backend : Except String Unit) :
    DebugState × List BackendCall × Except String Unit :=
  match st.session with
  | none => (st, [], Except.ok ())
  | some s =>
    match backend with
    | Except.ok _ =>
      (updateSessionBreakpoints st
         (objSet s.breakpoints nodeId
            { nodeId := nodeId, condition := condition, enabled := true }),
       [BackendCall.addBreakpoint s.id nodeId condition], Except.ok ())
    | Except.error msg =>
      ({ st with error := some msg },
       [BackendCall.addBreakpoint s.id nodeId condition], Except.error msg)

/-- `removeBreakpoint`: with no session, return; otherwise call the backend
and, on success, delete the node's entry from the local breakpoints map. -/
def removeBreakpoint (st : DebugState) (nodeId : String)
    (backend : Except String Unit) :
    DebugState × List BackendCall × Except String Unit :=
  match st.session with
  | none => (st, [], Except.ok ())
  | some s =>
    match backend with
    | Except.ok _ =>
      (updateSessionBreakpoints st (objDelete s.breakpoints nodeId),
       [BackendCall.removeBreakpoint s.id nodeId], Except.ok ())
    | Except.error msg =>
      ({ st with error := some msg },
       [BackendCall.removeBreakpoint s.id nodeId], Except.error msg)

/-- `toggleBreakpoint`: purely local — when a breakpoint exists for the
node, flip its `enabled` flag in place; no backend call is issued. -/
def toggleBreakpoint (st : DebugState) (nodeId : String) :
    DebugState × List BackendCall :=
  match st.session with
  | none => (st, [])
  | some s =>
    let breakpoints :=
      match objGet s.breakpoints nodeId with
      | some bp => objSet s.breakpoints nodeId { bp with enabled := !bp.enabled }
      | none => s.breakpoints
    (updateSessionBreakpoints st breakpoints, [])

/-- Modelled from the spec: the backend's validity rule for `step` — the
command is only valid (produces an execution effect) while the session is
`paused`; the backend, which is not part of this repository, is assumed to
reject it otherwise. -/
def stepPermitted (status : DebugStatus) : Bool :=
  status == DebugStatus.paused

/-- Modelled from the spec: the backend's validity rule for `continue` —
only valid while the session is `paused`. -/
def continuePermitted (status : DebugStatus) : Bool :=
  status == DebugStatus.paused

/-- Modelled from the spec: the backend's validity rule for `pause` — only
valid while the session is `running`. -/
def pausePermitted (status : DebugStatus) : Bool :=
  status == DebugStatus.running

/-! ### Concrete instances used by counterexamples and witnesses -/

/-- A document node carrying a port configuration. -/
def portedNode : DesignerNode :=
  { id := "task-1", type := "user_task", name := "Review",
    position := { x := 100, y := 200 }, properties := [],
    ports := some { inputs := [{ id := "in", name := "输入", position := "top" }],
                    outputs := [] } }

/-- A document node with a float position and a label-free property bag. -/
def plainNode : DesignerNode :=
  { id := "task-2", type := "user_task", name := "Approve",
    position := { x := 100.6, y := 200.4 },
    properties := [("assignee", JsValue.str "alice")] }

/-- A paused debug session with one enabled breakpoint. -/
def sessionEx : DebugSession :=
  { id := "sess-1", instanceId := "inst-1", definitionId := "def-1",
    mode := "step", status := DebugStatus.paused,
    breakpoints := [("task-1", { nodeId := "task-1", enabled := true })] }

/-- A debug store holding `sessionEx` with an open channel and a highlight. -/
def debugStateEx : DebugState :=
  { session := some sessionEx, ws := true,
    highlightedNodeId := some "task-1" }

/-- A two-node, one-edge render graph with the start node selected. -/
def graphStateEx : DesignerState :=
  { nodes := [{ id := "start-1", type := "start", position := { x := 0, y := 0 },
                data := [("label", JsValue.str "开始")] },
              { id := "end-1", type := "end", position := { x := 0, y := 200 },
                data := [("label", JsValue.str "结束")] }],
    edges := [{ id := "edge-1", source := "start-1", target := "end-1" }],
    selectedNodeId := some "start-1",
    selectedEdgeId := none }

/-- A well-formed `node_entered` event. -/
def nodeEnteredEv : DebugEvent :=
  { type := "node_entered", sessionId := "sess-1", timestamp := "t1",
    payload := [("node_id", JsValue.str "task-2")] }

/-- A frame decoder that accepts exactly one frame. -/
def parseEx : String → Option DebugEvent :=
  fun data => if data = "good-frame" then some nodeEnteredEv else none

/-- A `session_completed` event. -/
def completedEv : DebugEvent :=
  { type := "session_completed", sessionId := "sess-1", timestamp := "t2" }

/-! ### Helper lemmas -/

theorem objSet_of_not_mem {α : Type} (o : JsObj α) (k : String) (v : α)
    (h : ∀ p ∈ o, p.1 ≠ k) : objSet o k v = o ++ [(k, v)] := by
  have hc : ¬(o.any (fun p => p.1 == k) = true) := by
    simp only [List.any_eq_true, beq_iff_eq, not_exists, not_and]
    exact fun p hp => h p hp
  simp [objSet, hc]

theorem objExtend_of_disjoint {α : Type} (props : JsObj α) :
    ∀ o : JsObj α, (props.map Prod.fst).Nodup →
      (∀ p ∈ props, ∀ q ∈ o, q.1 ≠ p.1) →
      objExtend o props = o ++ props := by
  induction props with
  | nil => intro o _ _; simp [objExtend]
  | cons hd tl ih =>
    intro o hnd hdisj
    have hset : objSet o hd.1 hd.2 = o ++ [hd] := by
      have := objSet_of_not_mem o hd.1 hd.2
        (fun q hq => hdisj hd (List.mem_cons_self _ _) q hq)
      simpa using this
    have hnd2 : (hd.1 :: tl.map Prod.fst).Nodup := by simpa using hnd
    have hhd : hd.1 ∉ tl.map Prod.fst := (List.nodup_cons.mp hnd2).1
    have hnd' : (tl.map Prod.fst).Nodup := (List.nodup_cons.mp hnd2).2
    have hdisj' : ∀ p ∈ tl, ∀ q ∈ o ++ [hd], q.1 ≠ p.1 := by
      intro p hp q hq
      rcases List.mem_append.mp hq with hq | hq
      · exact hdisj p (List.mem_cons_of_mem _ hp) q hq
      · have : q = hd := by simpa using hq
        subst this
        intro hEq
        exact hhd (hEq ▸ List.mem_map_of_mem Prod.fst hp)
    have : objExtend o (hd :: tl) = objExtend (o ++ [hd]) tl := by
      simp [objExtend, hset]
    rw [this, ih (o ++ [hd]) hnd' hdisj']
    simp

theorem isNodeType_ne_empty {s : String} (h : isNodeType s = true) : s ≠ "" := by
  intro hs
  rw [hs] at h
  exact absurd h (by decide)

theorem label_objExtend (name : String) (props : JsObj JsValue)
    (hnd : (props.map Prod.fst).Nodup)
    (hlabel : "label" ∉ props.map Prod.fst) :
    objExtend [("label", JsValue.str name)] props =
      ("label", JsValue.str name) :: props := by
  rw [objExtend_of_disjoint props [("label", JsValue.str name)] hnd ?_]
  · simp
  · intro p hp q hq
    have hq' : q = ("label", JsValue.str name) := by simpa using hq
    subst hq'
    intro hEq
    have h1 : p.1 = "label" := by simpa using hEq.symm
    exact hlabel (h1 ▸ List.mem_map_of_mem Prod.fst hp)

theorem objGet_cons_self {α : Type} (k : String) (v : α) (o : JsObj α) :
    objGet ((k, v) :: o) k = some v := by
  simp [objGet, List.find?]

/-! ### Claim theorems -/

/-- Claim C1, counterexample to the claim as stated: the node projection
drops the optional `ports` configuration — `toFlowNode` does not copy it
and `toDesignerNodes` rebuilds a node without it — so a `DesignerNode`
carrying ports (with an integer position and a label-free property bag)
does not round-trip to itself-with-rounded-position. -/
theorem node_round_trip_counterexample :
    ¬ (toDesignerNodes { nodes := [toFlowNode portedNode] } =
        [{ portedNode with position := { x := (jsRound portedNode.position.x : ℚ),
                                         y := (jsRound portedNode.position.y : ℚ) } }]) := by
  intro h
  have h1 : fromFlowNode (toFlowNode portedNode) =
      { portedNode with position := { x := (jsRound portedNode.position.x : ℚ),
                                      y := (jsRound portedNode.position.y : ℚ) } } := by
    simpa [toDesignerNodes] using h
  have h2 := congrArg DesignerNode.ports h1
  simp [fromFlowNode, portedNode] at h2

/-- Claim C1 (amended): for every `DesignerNode` whose property bag contains
no key literally named `label` and which carries no port configuration,
converting it with `toFlowNode` and back with `toDesignerNodes` over a graph
containing that one render node yields the node unchanged except that the
position's coordinates are rounded to the nearest integer. (The bag's keys
are distinct because it is a JavaScript object.) -/
theorem node_round_trip_amended (st : DesignerState) (n : DesignerNode)
    (hnodes : st.nodes = [toFlowNode n])
    (htype : isNodeType n.type = true)
    (hnd : (n.properties.map Prod.fst).Nodup)
    (hlabel : "label" ∉ n.properties.map Prod.fst)
    (hports : n.ports = none) :
    toDesignerNodes st =
      [{ n with position := { x := (jsRound n.position.x : ℚ),
                              y := (jsRound n.position.y : ℚ) } }] := by
  have htype' : n.type ≠ "" := isNodeType_ne_empty htype
  have htypeb : (n.type == "") = false := by simpa using htype'
  have hfilter : n.properties.filter (fun p => p.1 != "label") = n.properties := by
    apply List.filter_eq_self.mpr
    intro p hp
    simp only [bne_iff_ne, ne_eq, decide_eq_true_eq]
    intro hEq
    exact hlabel (hEq ▸ List.mem_map_of_mem Prod.fst hp)
  obtain ⟨nid, ntype, nname, npos, nprops, nports⟩ := n
  simp only at htypeb hfilter hnd hlabel
  simp only at hports
  subst hports
  simp only [toDesignerNodes, hnodes, List.map_cons, List.map_nil,
    fromFlowNode, toFlowNode, label_objExtend nname nprops hnd hlabel,
    objGet_cons_self, htypeb, Bool.false_eq_true, if_false, List.filter_cons]
  simp [hfilter]

/-- Witness for the amended claim C1 at a concrete node: position
`(100.6, 200.4)` rounds to `(101, 200)` and the `assignee` property
survives the round trip. -/
theorem node_round_trip_witness :
    toDesignerNodes { nodes := [toFlowNode plainNode] } =
      [{ plainNode with position := { x := (jsRound plainNode.position.x : ℚ),
                                      y := (jsRound plainNode.position.y : ℚ) } }] :=
  node_round_trip_amended _ plainNode rfl (by decide) (by decide) (by decide) rfl

/-- Claim C2: with an active session, `stop` awaits the backend call; on
success it disconnects the event channel and clears the session and the
highlighted node, while on failure the session is not cleared — the error
message is stored, the exception is re-raised, and session and highlight
remain as they were. -/
theorem stop_asymmetry (st : DebugState) (s : DebugSession)
    (hs : st.session = some s) :
    ((stop st (Except.ok ())).1.session = none ∧
     (stop st (Except.ok ())).1.highlightedNodeId = none ∧
     (stop st (Except.ok ())).1.ws = false ∧
     (stop st (Except.ok ())).2.1 = [BackendCall.debugStop s.id] ∧
     (stop st (Except.ok ())).2.2 = Except.ok ()) ∧
    (∀ msg : String,
     (stop st (Except.error msg)).1.session = some s ∧
     (stop st (Except.error msg)).1.highlightedNodeId = st.highlightedNodeId ∧
     (stop st (Except.error msg)).1.error = some msg ∧
     (stop st (Except.error msg)).2.1 = [BackendCall.debugStop s.id] ∧
     (stop st (Except.error msg)).2.2 = Except.error msg) := by
  refine ⟨?_, ?_⟩ <;> simp [stop, hs, disconnect]

/-- Witness for claim C2 at a concrete session: a successful stop clears
the local state, a failing stop preserves it and surfaces `"boom"`. -/
theorem stop_asymmetry_witness :
    ((stop debugStateEx (Except.ok ())).1.session = none ∧
     (stop debugStateEx (Except.ok ())).1.highlightedNodeId = none ∧
     (stop debugStateEx (Except.ok ())).1.ws = false ∧
     (stop debugStateEx (Except.ok ())).2.1 = [BackendCall.debugStop "sess-1"] ∧
     (stop debugStateEx (Except.ok ())).2.2 = Except.ok ()) ∧
    ((stop debugStateEx (Except.error "boom")).1.session = some sessionEx ∧
     (stop debugStateEx (Except.error "boom")).1.highlightedNodeId =
       debugStateEx.highlightedNodeId ∧
     (stop debugStateEx (Except.error "boom")).1.error = some "boom" ∧
     (stop debugStateEx (Except.error "boom")).2.1 = [BackendCall.debugStop "sess-1"] ∧
     (stop debugStateEx (Except.error "boom")).2.2 = Except.error "boom") :=
  ⟨(stop_asymmetry debugStateEx sessionEx rfl).1,
   (stop_asymmetry debugStateEx sessionEx rfl).2 "boom"⟩

/-- Claim C3: after `deleteNode v` on a graph containing node id `v`, the
node is absent, no remaining edge has `v` as source or target, and the node
selection is cleared exactly when it pointed at `v`. -/
theorem cascade_delete (st : DesignerState) (v : String)
    (hv : ∃ n ∈ st.nodes, n.id = v) :
    (∀ n ∈ (deleteNode st v).nodes, n.id ≠ v) ∧
    (∀ e ∈ (deleteNode st v).edges, e.source ≠ v ∧ e.target ≠ v) ∧
    (deleteNode st v).selectedNodeId =
      (if st.selectedNodeId = some v then none else st.selectedNodeId) := by
  refine ⟨?_, ?_, rfl⟩
  · intro n hn
    have h := List.of_mem_filter hn
    simpa using h
  · intro e he
    have h := List.of_mem_filter he
    simp only [Bool.and_eq_true, bne_iff_ne, ne_eq] at h
    exact h

/-- Witness for claim C3: deleting `start-1` from the two-node graph drops
the node, its incident edge, and the selection. -/
theorem cascade_delete_witness :
    (∀ n ∈ (deleteNode graphStateEx "start-1").nodes, n.id ≠ "start-1") ∧
    (∀ e ∈ (deleteNode graphStateEx "start-1").edges,
       e.source ≠ "start-1" ∧ e.target ≠ "start-1") ∧
    (deleteNode graphStateEx "start-1").selectedNodeId =
      (if graphStateEx.selectedNodeId = some "start-1" then none
       else graphStateEx.selectedNodeId) :=
  cascade_delete graphStateEx "start-1"
    ⟨{ id := "start-1", type := "start", position := { x := 0, y := 0 },
       data := [("label", JsValue.str "开始")] }, by decide, rfl⟩

/-- Claim C4: `toggleBreakpoint` on a node with an existing breakpoint
flips only that breakpoint's `enabled` flag and issues no backend call;
`addBreakpoint` and `removeBreakpoint` each issue a backend call and, on
its success, insert `{ nodeId, condition, enabled := true }` into, or
delete the node's entry from, the local breakpoints map. -/
theorem breakpoint_divergence :
    (∀ (st : DebugState) (s : DebugSession) (bp : Breakpoint) (nodeId : String),
       st.session = some s → objGet s.breakpoints nodeId = some bp →
       toggleBreakpoint st nodeId =
         ({ st with session := some { s with breakpoints := objSet s.breakpoints nodeId { bp with enabled := !bp.enabled } } }, [])) ∧
    (∀ (st : DebugState) (s : DebugSession) (nodeId : String) (cond : Option String)
       (backend : Except String Unit), st.session = some s →
       (addBreakpoint st nodeId cond backend).2.1 =
         [BackendCall.addBreakpoint s.id nodeId cond]) ∧
    (∀ (st : DebugState) (s : DebugSession) (nodeId : String)
       (backend : Except String Unit), st.session = some s →
       (removeBreakpoint st nodeId backend).2.1 =
         [BackendCall.removeBreakpoint s.id nodeId]) ∧
    (∀ (st : DebugState) (s : DebugSession) (nodeId : String) (cond : Option String),
       st.session = some s →
       (addBreakpoint st nodeId cond (Except.ok ())).1.session =
         some { s with breakpoints := objSet s.breakpoints nodeId { nodeId := nodeId, condition := cond, enabled := true } }) ∧
    (∀ (st : DebugState) (s : DebugSession) (nodeId : String),
       st.session = some s →
       (removeBreakpoint st nodeId (Except.ok ())).1.session =
         some { s with breakpoints := objDelete s.breakpoints nodeId }) := by
  refine ⟨?_, ?_, ?_, ?_, ?_⟩
  · intro st s bp nodeId hs hbp
    simp [toggleBreakpoint, hs, hbp, updateSessionBreakpoints]
  · intro st s nodeId cond backend hs
    cases backend <;> simp [addBreakpoint, hs]
  · intro st s nodeId backend hs
    cases backend <;> simp [removeBreakpoint, hs]
  · intro st s nodeId cond hs
    simp [addBreakpoint, hs, updateSessionBreakpoints]
  · intro st s nodeId hs
    simp [removeBreakpoint, hs, updateSessionBreakpoints]

/-- Witness for claim C4 at a concrete session: toggling the `task-1`
breakpoint disables it locally with no backend call, while add and remove
issue their calls and update the map on success. -/
theorem breakpoint_divergence_witness :
    toggleBreakpoint debugStateEx "task-1" =
      ({ debugStateEx with session := some { sessionEx with breakpoints := objSet sessionEx.breakpoints "task-1" { nodeId := "task-1", condition := none, enabled := false } } }, []) ∧
    (addBreakpoint debugStateEx "task-2" (some "x > 1") (Except.ok ())).2.1 =
      [BackendCall.addBreakpoint "sess-1" "task-2" (some "x > 1")] ∧
    (removeBreakpoint debugStateEx "task-1" (Except.error "down")).2.1 =
      [BackendCall.removeBreakpoint "sess-1" "task-1"] ∧
    (addBreakpoint debugStateEx "task-2" (some "x > 1") (Except.ok ())).1.session =
      some { sessionEx with breakpoints := objSet sessionEx.breakpoints "task-2" { nodeId := "task-2", condition := some "x > 1", enabled := true } } ∧
    (removeBreakpoint debugStateEx "task-1" (Except.ok ())).1.session =
      some { sessionEx with breakpoints := objDelete sessionEx.breakpoints "task-1" } :=
  ⟨breakpoint_divergence.1 debugStateEx sessionEx
     { nodeId := "task-1", condition := none, enabled := true } "task-1" rfl (by decide),
   breakpoint_divergence.2.1 debugStateEx sessionEx "task-2" (some "x > 1")
     (Except.ok ()) rfl,
   breakpoint_divergence.2.2.1 debugStateEx sessionEx "task-1"
     (Except.error "down") rfl,
   breakpoint_divergence.2.2.2.1 debugStateEx sessionEx "task-2" (some "x > 1") rfl,
   breakpoint_divergence.2.2.2.2 debugStateEx sessionEx "task-1" rfl⟩

/-- Claim C5: the protocol's validity rules (modelled from the spec, since
the backend is outside this repository) hold — `step` and `continue` are
permitted exactly while paused and `pause` exactly while running; at the
client, `step` with no session is a no-op returning `null` with no backend
call, and `step` with a session of any status is delegated to the
backend. -/
theorem debug_control_guard :
    (∀ status : DebugStatus,
       stepPermitted status = true ↔ status = DebugStatus.paused) ∧
    (∀ status : DebugStatus,
       continuePermitted status = true ↔ status = DebugStatus.paused) ∧
    (∀ status : DebugStatus,
       pausePermitted status = true ↔ status = DebugStatus.running) ∧
    (∀ (st : DebugState) (backend : Except String StepResult),
       st.session = none → step st backend = (st, [], Except.ok none)) ∧
    (∀ (st : DebugState) (s : DebugSession) (backend : Except String StepResult),
       st.session = some s → (step st backend).2.1 = [BackendCall.debugStep s.id]) := by
  refine ⟨?_, ?_, ?_, ?_, ?_⟩
  · intro status; cases status <;> simp [stepPermitted]
  · intro status; cases status <;> simp [continuePermitted]
  · intro status; cases status <;> simp [pausePermitted]
  · intro st backend hs; simp [step, hs]
  · intro st s backend hs; cases backend <;> simp [step, hs]

/-- Witness for claim C5: with no session, `step` returns `null` issuing no
call even when the backend would fail; with a completed session, the call
is still delegated. -/
theorem debug_control_guard_witness :
    (stepPermitted DebugStatus.paused = true ↔
       DebugStatus.paused = DebugStatus.paused) ∧
    step { session := none } (Except.error "offline") =
      ({ session := none }, [], Except.ok none) ∧
    (step { session := some { sessionEx with status := DebugStatus.completed } }
       (Except.error "rejected")).2.1 = [BackendCall.debugStep "sess-1"] :=
  ⟨debug_control_guard.1 DebugStatus.paused,
   debug_control_guard.2.2.2.1 { session := none } (Except.error "offline") rfl,
   debug_control_guard.2.2.2.2
     { session := some { sessionEx with status := DebugStatus.completed } }
     { sessionEx with status := DebugStatus.completed } (Except.error "rejected") rfl⟩

/-- Claim C6: a frame whose data fails to decode is swallowed — the handler
returns the state unchanged (session, highlight and event log untouched, no
exception escapes) — and a subsequent well-formed `node_entered` event is
processed exactly as it would have been without the bad frame, setting the
highlight from its payload. -/
theorem malformed_frame_tolerance (parse : String → Option DebugEvent)
    (st : DebugState) (bad good : String) (e : DebugEvent)
    (hbad : parse bad = none) (hgood : parse good = some e)
    (htype : e.type = "node_entered") :
    onMessage parse st bad = st ∧
    onMessage parse (onMessage parse st bad) good = handleEvent st e ∧
    (onMessage parse (onMessage parse st bad) good).highlightedNodeId =
      payloadNodeId e.payload := by
  have h1 : onMessage parse st bad = st := by simp [onMessage, hbad]
  refine ⟨h1, ?_, ?_⟩
  · rw [h1]; simp [onMessage, hgood]
  · rw [h1]; simp [onMessage, hgood, handleEvent, htype]

/-- Witness for claim C6: a non-JSON frame leaves the concrete state
unchanged and a following `node_entered` frame moves the highlight. -/
theorem malformed_frame_tolerance_witness :
    onMessage parseEx debugStateEx "not json" = debugStateEx ∧
    onMessage parseEx (onMessage parseEx debugStateEx "not json") "good-frame" =
      handleEvent debugStateEx nodeEnteredEv ∧
    (onMessage parseEx (onMessage parseEx debugStateEx "not json")
        "good-frame").highlightedNodeId = payloadNodeId nodeEnteredEv.payload :=
  malformed_frame_tolerance parseEx debugStateEx "not json" "good-frame"
    nodeEnteredEv (by decide) (by decide) rfl

/-- Claim C7: `loadTemplates` is total (it never raises to its caller); on
backend success it installs the fetched catalog, and on any backend failure
it installs the fixed, non-empty built-in fallback catalog. -/
theorem template_fallback :
    (∀ (st : DesignerState) (ts : List NodeTemplate),
       loadTemplates st (Except.ok ts) = { st with templates := ts }) ∧
    (∀ (st : DesignerState) (msg : String),
       loadTemplates st (Except.error msg) = { st with templates := defaultTemplates }) ∧
    defaultTemplates.length = 5 :=
  ⟨fun _ _ => rfl, fun _ _ => rfl, rfl⟩

/-- Claim C8: `selectNode x` leaves `selectedNodeId = x` and clears the
edge selection; `selectEdge y` leaves `selectedEdgeId = y` and clears the
node selection; `selectNode none` after a prior selection clears it, so at
most one selection is set after any selection call. -/
theorem selection_exclusivity (st : DesignerState) (x y : Option String) (a : String) :
    ((selectNode st x).selectedNodeId = x ∧ (selectNode st x).selectedEdgeId = none) ∧
    ((selectEdge st y).selectedEdgeId = y ∧ (selectEdge st y).selectedNodeId = none) ∧
    (selectNode (selectNode st (some a)) none).selectedNodeId = none ∧
    ((selectNode st x).selectedNodeId = none ∨ (selectNode st x).selectedEdgeId = none) ∧
    ((selectEdge st y).selectedNodeId = none ∨ (selectEdge st y).selectedEdgeId = none) :=
  ⟨⟨rfl, rfl⟩, ⟨rfl, rfl⟩, rfl, Or.inr rfl, Or.inl rfl⟩

/-- Claim C9: with an active session, one `session_completed` event sets
the status to `completed` and clears the highlight, and applying the same
event a second time leaves the session status and the highlighted node
exactly as after the first application. -/
theorem session_completed_idempotent (st : DebugState) (e : DebugEvent)
    (s : DebugSession) (hs : st.session = some s)
    (ht : e.type = "session_completed") :
    (handleEvent st e).session.map DebugSession.status =
      some DebugStatus.completed ∧
    (handleEvent st e).highlightedNodeId = none ∧
    (handleEvent (handleEvent st e) e).session.map DebugSession.status =
      (handleEvent st e).session.map DebugSession.status ∧
    (handleEvent (handleEvent st e) e).highlightedNodeId =
      (handleEvent st e).highlightedNodeId := by
  simp [handleEvent, ht, updateSessionStatus, hs]

/-- Witness for claim C9 at a concrete state and event. -/
theorem session_completed_idempotent_witness :
    (handleEvent debugStateEx completedEv).session.map DebugSession.status =
      some DebugStatus.completed ∧
    (handleEvent debugStateEx completedEv).highlightedNodeId = none ∧
    (handleEvent (handleEvent debugStateEx completedEv) completedEv).session.map
        DebugSession.status =
      (handleEvent debugStateEx completedEv).session.map DebugSession.status ∧
    (handleEvent (handleEvent debugStateEx completedEv) completedEv).highlightedNodeId =
      (handleEvent debugStateEx completedEv).highlightedNodeId :=
  session_completed_idempotent debugStateEx completedEv sessionEx rfl rfl

/-- Claim C10: `deleteEdge e` removes exactly the edges whose id equals
`e`, keeps all other edges in order, leaves the node list and the node
selection unchanged, and clears the edge selection exactly when it pointed
at the deleted edge. -/
theorem delete_edge_frame (st : DesignerState) (eid : String) :
    (∀ e ∈ (deleteEdge st eid).edges, e.id ≠ eid) ∧
    (deleteEdge st eid).edges.Sublist st.edges ∧
    (∀ e ∈ st.edges, e.id ≠ eid → e ∈ (deleteEdge st eid).edges) ∧
    (deleteEdge st eid).nodes = st.nodes ∧
    (deleteEdge st eid).selectedNodeId = st.selectedNodeId ∧
    (deleteEdge st eid).selectedEdgeId =
      (if st.selectedEdgeId = some eid then none else st.selectedEdgeId) := by
  refine ⟨?_, ?_, ?_, rfl, rfl, rfl⟩
  · intro e he
    have h := List.of_mem_filter he
    simpa using h
  · exact List.filter_sublist _
  · intro e he hne
    apply List.mem_filter.mpr
    exact ⟨he, by simpa using hne⟩
